import Mathlib

/-!
Shallow embedding of the control-plane core of the Xilinx AXI DMA driver:
the device-tree topology resolver (`axidma_of.c`) and the character-device
session manager (`axidma_chrdev.c`), together with theorems settling the
behavioural claims about them.
-/

namespace Axidma

/-- Engine type of a channel (`AXIDMA_DMA` / `AXIDMA_VDMA`). -/
inductive ChanType
  | dma
  | vdma
deriving DecidableEq, Repr, Inhabited

/-- Transfer direction (`AXIDMA_WRITE` = mm2s/to-device,
`AXIDMA_READ` = s2mm/from-device). -/
inductive ChanDir
  | write
  | read
deriving DecidableEq, Repr, Inhabited

/-- The fields of `struct axidma_chan` that the resolver writes:
type, direction and the channel id. -/
structure AxidmaChan where
  type : ChanType
  dir : ChanDir
  channel_id : Nat
deriving DecidableEq, Repr, Inhabited

/-- The fields of `struct axidma_device` that the two source files touch.
`struct axidma_device` itself is declared in `axidma.h` (not among the
sources); the fields below are those read or written by `axidma_of.c` and
`axidma_chrdev.c`, plus `dma_base_len`, the buffer length of the device's
DMA region from the spec's data model (`buffer_length`), which the
character-device code never reads. -/
structure AxidmaDevice where
  num_chans : Nat
  channels : List AxidmaChan
  num_dma_tx_chans : Nat
  num_dma_rx_chans : Nat
  num_vdma_tx_chans : Nat
  num_vdma_rx_chans : Nat
  dma_base_vaddr : Nat
  dma_base_len : Nat
deriving DecidableEq, Repr, Inhabited

/-- A child (channel) node of a DMA core node in the device tree, as seen by
the parser: only its `compatible` string property matters (`none` models a
node without that property). -/
structure ChanNode where
  compatible : Option String
deriving DecidableEq, Repr, Inhabited

/-- A DMA core node in the device tree: its ordered list of child nodes. -/
structure DmaNode where
  children : List ChanNode
deriving DecidableEq, Repr, Inhabited

/-- One entry of the `dmas` phandle property: the referenced DMA core node
plus the argument cells attached to the reference. -/
structure PhandleEntry where
  np : DmaNode
  args : List Nat
deriving DecidableEq, Repr, Inhabited

/-- The driver's own device-tree node: its `dma-names` string-list property
and its `dmas` phandle-list property, either of which may be absent. -/
structure DriverNode where
  dmaNames : Option (List String)
  dmas : Option (List PhandleEntry)
deriving DecidableEq, Repr, Inhabited

/-- The distinct failure paths of the resolver (each returns `-EINVAL` in
the C, distinguished there by its log message; `phandleFail` returns the
error of `of_parse_phandle_with_args`). -/
inductive OfErr
  | missingDmaNames
  | missingDmas
  | emptyDmaNames
  | emptyDmas
  | lengthMismatch
  | phandleFail (i : Nat)
  | missingChannelArg (i : Nat)
  | invalidChannelArg (i : Nat)
  | noChildNodes
  | tooManyChildNodes
  | missingCompatible
  | invalidCompatible
deriving DecidableEq, Repr

/-- Embeds `axidma_parse_compatible_property` (`axidma_of.c` lines 26-51): matches
the `compatible` string against the four recognised channel types, setting
the channel's type and direction and bumping the corresponding device
counter.  Note: the `xlnx,axi-vdma-s2mm-channel` branch increments
`num_dma_rx_chans`, exactly as the C source does (line 45). -/
def axidma_parse_compatible_property (compatible : String) (chan : AxidmaChan)
    (dev : AxidmaDevice) : Except OfErr (AxidmaChan × AxidmaDevice) :=
  if compatible = "xlnx,axi-dma-mm2s-channel" then
    Except.ok ({ chan with type := ChanType.dma, dir := ChanDir.write },
               { dev with num_dma_tx_chans := dev.num_dma_tx_chans + 1 })
  else if compatible = "xlnx,axi-dma-s2mm-channel" then
    Except.ok ({ chan with type := ChanType.dma, dir := ChanDir.read },
               { dev with num_dma_rx_chans := dev.num_dma_rx_chans + 1 })
  else if compatible = "xlnx,axi-vdma-mm2s-channel" then
    Except.ok ({ chan with type := ChanType.vdma, dir := ChanDir.write },
               { dev with num_vdma_tx_chans := dev.num_vdma_tx_chans + 1 })
  else if compatible = "xlnx,axi-vdma-s2mm-channel" then
    Except.ok ({ chan with type := ChanType.vdma, dir := ChanDir.read },
               { dev with num_dma_rx_chans := dev.num_dma_rx_chans + 1 })
  else
    Except.error OfErr.invalidCompatible

/-- Embeds `axidma_of_parse_channel` (`axidma_of.c` lines 53-99): checks the DMA
core node has one or two children, walks to the selected child
(`of_get_next_child` once for selector 0, twice for selector 1; a second
walk past a single child yields no node, and `of_find_property` on no node
reports the `compatible` property as missing), reads its `compatible`
string, and dispatches to `axidma_parse_compatible_property`. -/
def axidma_of_parse_channel (dma_node : DmaNode) (channel : Nat)
    (chan : AxidmaChan) (dev : AxidmaDevice) :
    Except OfErr (AxidmaChan × AxidmaDevice) :=
  if dma_node.children.length < 1 then
    Except.error OfErr.noChildNodes
  else if dma_node.children.length > 2 then
    Except.error OfErr.tooManyChildNodes
  else
    match (if channel = 1 then dma_node.children.get? 1
           else dma_node.children.get? 0) with
    | none => Except.error OfErr.missingCompatible
    | some chan_node =>
      match chan_node.compatible with
      | none => Except.error OfErr.missingCompatible
      | some compatible => axidma_parse_compatible_property compatible chan dev

/-- Embeds `axidma_of_num_channels` (`axidma_of.c` lines 105-150): checks that the
`dma-names` and `dmas` properties are present and non-empty and that their
lengths agree, returning the shared length. -/
def axidma_of_num_channels (dn : DriverNode) : Except OfErr Nat :=
  match dn.dmaNames with
  | none => Except.error OfErr.missingDmaNames
  | some names =>
    match dn.dmas with
    | none => Except.error OfErr.missingDmas
    | some dmas =>
      if names.length = 0 then Except.error OfErr.emptyDmaNames
      else if dmas.length = 0 then Except.error OfErr.emptyDmas
      else if names.length ≠ dmas.length then Except.error OfErr.lengthMismatch
      else Except.ok names.length

/-- Embeds the call `of_parse_phandle_with_args(driver_node, "dmas", "#dma-cells", i, ...)`:
fails when the `dmas` property is absent or `i` is past its end, else
yields the referenced node and its argument cells. -/
def of_parse_phandle_with_args (dn : DriverNode) (i : Nat) :
    Except OfErr PhandleEntry :=
  match dn.dmas with
  | none => Except.error (OfErr.phandleFail i)
  | some dmas =>
    match dmas.get? i with
    | none => Except.error (OfErr.phandleFail i)
    | some entry => Except.ok entry

/-- One iteration of the loop body of `axidma_of_parse_dma_nodes`
(`axidma_of.c` lines 171-203): fetch phandle `i`, reject a missing
argument (`args_count < 1`) and a selector other than 0 or 1, parse the
channel into `dev->channels[i]`, then set `channel_id = i`. -/
def axidma_of_parse_one (dn : DriverNode) (i : Nat) (dev : AxidmaDevice) :
    Except OfErr AxidmaDevice :=
  match of_parse_phandle_with_args dn i with
  | Except.error e => Except.error e
  | Except.ok pa =>
    match pa.args with
    | [] => Except.error (OfErr.missingChannelArg i)
    | channel :: _ =>
      if channel ≠ 0 ∧ channel ≠ 1 then
        Except.error (OfErr.invalidChannelArg i)
      else
        match axidma_of_parse_channel pa.np channel
              (dev.channels.getD i default) dev with
        | Except.error e => Except.error e
        | Except.ok (chan, dev1) =>
          Except.ok { dev1 with
            channels := dev1.channels.set i { chan with channel_id := i } }

/-- The loop of `axidma_of_parse_dma_nodes` over the given channel indices,
threading the device state; on the first error it stops and returns the
device exactly as mutated so far (the C returns `rc` leaving `dev`
untouched past that point). -/
def parseChansSt (dn : DriverNode) :
    List Nat → AxidmaDevice → Except OfErr Unit × AxidmaDevice
  | [], dev => (Except.ok (), dev)
  | i :: rest, dev =>
    match axidma_of_parse_one dn i dev with
    | Except.error e => (Except.error e, dev)
    | Except.ok dev1 => parseChansSt dn rest dev1

/-- Embeds `axidma_of_parse_dma_nodes` (`axidma_of.c` lines 152-206): zeroes the
four channel-type counters, then parses channels `0 .. num_chans - 1` in
order. -/
def axidma_of_parse_dma_nodes (dn : DriverNode) (dev : AxidmaDevice) :
    Except OfErr Unit × AxidmaDevice :=
  parseChansSt dn (List.range dev.num_chans)
    { dev with num_dma_tx_chans := 0, num_dma_rx_chans := 0,
               num_vdma_tx_chans := 0, num_vdma_rx_chans := 0 }

/-- Sum of the four channel-type counters (`count_by_kind` total). -/
def countSum (dev : AxidmaDevice) : Nat :=
  dev.num_dma_tx_chans + dev.num_dma_rx_chans +
    dev.num_vdma_tx_chans + dev.num_vdma_rx_chans

/-- Modelled from the spec: the attach-time probe sequence (in `axidma.c`,
which is not among the sources) that wires the Topology Resolver to the
Session Manager.  Per the spec it calls `count_declared_channels` to size
storage, then `resolve`, and publishes the topology to the Session Manager
only when resolution fully succeeds; on any resolution error the attach is
aborted and nothing is published ("the first error aborts resolution and
discards any partial topology"). -/
def axidma_attach (dn : DriverNode) (dev : AxidmaDevice) :
    Option AxidmaDevice :=
  match axidma_of_num_channels dn with
  | Except.error _ => none
  | Except.ok n =>
    match axidma_of_parse_dma_nodes dn
          { dev with num_chans := n, channels := List.replicate n default } with
    | (Except.ok _, dev2) => some dev2
    | (Except.error _, _) => none

/-- Errno value `EPERM`. -/
def EPERM : Int := 1

/-- Errno value `EINVAL`. -/
def EINVAL : Int := 22

/-- The `O_EXCL` open flag bit (octal 0200 on Linux). -/
def O_EXCL : Nat := 128

/-- The fields of `struct file` that the character device touches: the open
flags and the `private_data` pointer (holding the device after a
successful open). -/
structure File where
  f_flags : Nat
  private_data : Option AxidmaDevice
deriving DecidableEq, Repr

/-- Embeds `axidma_open` (`axidma_chrdev.c` lines 29-43): requires
`capable(CAP_SYS_ADMIN)` (else `-EPERM`) and the `O_EXCL` flag (else
`-EINVAL`); on success stores the device in the file's `private_data` and
returns 0.  Returns the return code and the (possibly updated) file. -/
def axidma_open (cap_sys_admin : Bool) (file : File) (dev : AxidmaDevice) :
    Int × File :=
  if ¬ cap_sys_admin then (-EPERM, file)
  else if file.f_flags &&& O_EXCL = 0 then (-EINVAL, file)
  else (0, { file with private_data := some dev })

/-- Embeds `axidma_release` (`axidma_chrdev.c` lines 45-49): clears
`private_data` and returns 0. -/
def axidma_release (file : File) : Int × File :=
  (0, { file with private_data := none })

/-- The fields of `struct vm_area_struct` that `axidma_mmap` reads:
the range of the mapping and the page offset requested by the caller
(which the code never reads). -/
structure Vma where
  vm_start : Nat
  vm_end : Nat
  vm_pgoff : Nat
deriving DecidableEq, Repr

/-- The request `axidma_mmap` hands to the external collaborator
`remap_pfn_range`: user start address, the kernel address being mapped
(`virt_to_phys`/`__phys_to_pfn` translation is the collaborator's), the
size, and whether the page protection was marked non-cacheable. -/
structure RemapRequest where
  vm_start : Nat
  base_addr : Nat
  size : Nat
  noncached : Bool
deriving DecidableEq, Repr

/-- Embeds `axidma_mmap` (`axidma_chrdev.c` lines 51-76): computes
`alloc_size = vm_end - vm_start`, marks the protection non-cacheable,
takes `addr = dev->dma_base_vaddr`, and delegates to `remap_pfn_range`
(whose outcome is the oracle argument `remap_rc`), propagating a negative
collaborator result and returning 0 otherwise.  Returns the return code
and the request that was delegated. -/
def axidma_mmap (dev : AxidmaDevice) (vma : Vma) (remap_rc : Int) :
    Int × RemapRequest :=
  let alloc_size := vma.vm_end - vma.vm_start
  let req : RemapRequest :=
    { vm_start := vma.vm_start, base_addr := dev.dma_base_vaddr,
      size := alloc_size, noncached := true }
  if remap_rc < 0 then (remap_rc, req) else (0, req)

/-- One call at the character-device interface: an `open(2)` with the
caller's privilege and flags, or a `release`. -/
inductive ChrdevOp
  | openOp (cap_sys_admin : Bool) (f_flags : Nat)
  | releaseOp
deriving DecidableEq, Repr

/-- One step of the open/release sequence on an initialized device.  The
state is the number of live sessions (files whose `open` succeeded and
were not yet released).  Returns the new state and the call's return
code.  The driver itself keeps no such count: `axidma_open` consults
nothing but the caller's privilege and flags. -/
def chrdevStep (dev : AxidmaDevice) (live : Nat) : ChrdevOp → Nat × Int
  | ChrdevOp.openOp cap flags =>
    let r := axidma_open cap { f_flags := flags, private_data := none } dev
    ((if r.1 = 0 then live + 1 else live), r.1)
  | ChrdevOp.releaseOp =>
    let r := axidma_release { f_flags := 0, private_data := some dev }
    (if r.2.private_data = none then live - 1 else live, r.1)

/-- Run a sequence of open/release calls from a given live-session count,
collecting the return codes. -/
def chrdevRun (dev : AxidmaDevice) : List ChrdevOp → Nat → Nat × List Int
  | [], live => (live, [])
  | op :: rest, live =>
    let s := chrdevStep dev live op
    let r := chrdevRun dev rest s.1
    (r.1, s.2 :: r.2)

/-! ### Concrete fixtures used by counterexamples and witnesses -/

/-- A DMA core node with a single child tagged as a DMA transmit channel. -/
def txNode : DmaNode := { children := [{ compatible := some "xlnx,axi-dma-mm2s-channel" }] }

/-- A DMA core node with a single child tagged as a DMA receive channel. -/
def rxNode : DmaNode := { children := [{ compatible := some "xlnx,axi-dma-s2mm-channel" }] }

/-- A DMA core node with a single child tagged as a VDMA receive channel. -/
def vdmaRxNode : DmaNode :=
  { children := [{ compatible := some "xlnx,axi-vdma-s2mm-channel" }] }

/-- A device with no channels and all counters zero. -/
def dev0 : AxidmaDevice :=
  { num_chans := 0, channels := [], num_dma_tx_chans := 0, num_dma_rx_chans := 0,
    num_vdma_tx_chans := 0, num_vdma_rx_chans := 0, dma_base_vaddr := 0,
    dma_base_len := 0 }

/-- A device sized for one channel. -/
def dev1 : AxidmaDevice := { dev0 with num_chans := 1, channels := [default] }

/-- A driver node whose single channel reference carries two arguments. -/
def dn7 : DriverNode := { dmaNames := some ["a"], dmas := some [{ np := txNode, args := [0, 7] }] }

/-- The same driver node with the extra argument dropped. -/
def dn7b : DriverNode := { dmaNames := some ["a"], dmas := some [{ np := txNode, args := [0] }] }

/-- A driver node with two names but a single channel reference. -/
def dn8 : DriverNode :=
  { dmaNames := some ["a", "b"], dmas := some [{ np := txNode, args := [0] }] }

/-- A driver node whose single reference points at a childless DMA core node. -/
def dnBad : DriverNode :=
  { dmaNames := some ["a"], dmas := some [{ np := { children := [] }, args := [0] }] }

/-- A driver node declaring one VDMA receive channel. -/
def dnVdmaRx : DriverNode :=
  { dmaNames := some ["rx"], dmas := some [{ np := vdmaRxNode, args := [0] }] }

/-- A driver node declaring a transmit and a receive channel, in that order. -/
def dn5 : DriverNode :=
  { dmaNames := some ["tx", "rx"],
    dmas := some [{ np := txNode, args := [0] }, { np := rxNode, args := [0] }] }

/-- A device sized for two channels. -/
def dev5 : AxidmaDevice :=
  { dev0 with num_chans := 2, channels := [default, default] }

/-- A device whose DMA buffer region is 4096 bytes long. -/
def devBuf : AxidmaDevice := { dev0 with dma_base_vaddr := 4096, dma_base_len := 4096 }

/-- A mapping request for 8192 bytes at offset 0. -/
def vmaBig : Vma := { vm_start := 0, vm_end := 8192, vm_pgoff := 0 }

/-! ### Theorems -/

/-- C9: open by a caller without elevated privilege fails with `-EPERM`
(PermissionDenied), and open by a privileged caller that does not request
`O_EXCL` fails with `-EINVAL` (InvalidRequest); in both failure cases the
file is returned unchanged, so no session is recorded. -/
theorem c9_open_failure_modes (cap : Bool) (file : File) (dev : AxidmaDevice) :
    (cap = false → axidma_open cap file dev = (-EPERM, file)) ∧
    (file.f_flags &&& O_EXCL = 0 → axidma_open true file dev = (-EINVAL, file)) := by
  constructor
  · intro h
    subst h
    simp [axidma_open]
  · intro h
    simp [axidma_open, h]

/-- Witness for C9 at concrete callers. -/
theorem c9_open_failure_modes_witness :
    axidma_open false { f_flags := O_EXCL, private_data := none } dev0 =
      (-EPERM, { f_flags := O_EXCL, private_data := none }) ∧
    axidma_open true { f_flags := 0, private_data := none } dev0 =
      (-EINVAL, { f_flags := 0, private_data := none }) :=
  ⟨(c9_open_failure_modes false { f_flags := O_EXCL, private_data := none } dev0).1 rfl,
   (c9_open_failure_modes true { f_flags := 0, private_data := none } dev0).2 (by decide)⟩

/-- C1 counterexample: starting from a device with no live session, two
successive `open` calls from privileged, exclusive callers BOTH succeed
(return codes `[0, 0]`) and leave two live sessions — the second open does
not fail with an AlreadyOpen error, refuting the claimed at-most-one-live-
session invariant. -/
theorem c1_counterexample :
    chrdevRun dev0 [ChrdevOp.openOp true O_EXCL, ChrdevOp.openOp true O_EXCL] 0 =
      (2, [0, 0]) := by
  decide

/-- C1 (amended): `axidma_open` performs no liveness check: an open call
succeeds exactly when the caller is privileged and passes `O_EXCL`,
regardless of how many sessions are currently live (so several sessions
can be live at once); `release` always succeeds, and after a release a
subsequent open from a privileged, exclusive caller succeeds. -/
theorem c1_open_ignores_live_sessions (dev : AxidmaDevice) (live : Nat)
    (cap : Bool) (flags : Nat) :
    ((chrdevStep dev live (ChrdevOp.openOp cap flags)).2 = 0 ↔
      cap = true ∧ flags &&& O_EXCL ≠ 0) ∧
    (chrdevStep dev live ChrdevOp.releaseOp).2 = 0 ∧
    (chrdevStep dev (chrdevStep dev live ChrdevOp.releaseOp).1
      (ChrdevOp.openOp true O_EXCL)).2 = 0 := by
  refine ⟨?_, rfl, by simp [chrdevStep, axidma_open, O_EXCL]⟩
  cases cap with
  | false => simp [chrdevStep, axidma_open, EPERM]
  | true =>
    by_cases h : flags &&& O_EXCL = 0
    · simp [chrdevStep, axidma_open, h, EINVAL]
    · simp [chrdevStep, axidma_open, h]

/-- Witness for C1 (amended) at a state with one live session. -/
theorem c1_open_ignores_live_sessions_witness :
    ((chrdevStep dev0 1 (ChrdevOp.openOp true 128)).2 = 0 ↔
      true = true ∧ 128 &&& O_EXCL ≠ 0) ∧
    (chrdevStep dev0 1 ChrdevOp.releaseOp).2 = 0 ∧
    (chrdevStep dev0 (chrdevStep dev0 1 ChrdevOp.releaseOp).1
      (ChrdevOp.openOp true O_EXCL)).2 = 0 :=
  c1_open_ignores_live_sessions dev0 1 true 128

/-- C2 counterexample: a mapping request of 8192 bytes at offset 0 against
a buffer of length 4096 has `requested_offset + requested_length >
buffer_length`, yet `axidma_mmap` does not fail with an OutOfRange error:
it returns 0 and delegates the whole 8192-byte range at the buffer base to
the mapping collaborator. -/
theorem c2_counterexample :
    vmaBig.vm_pgoff + (vmaBig.vm_end - vmaBig.vm_start) > devBuf.dma_base_len ∧
    axidma_mmap devBuf vmaBig 0 =
      (0, { vm_start := 0, base_addr := 4096, size := 8192, noncached := true }) := by
  decide

/-- C2 (amended): `axidma_mmap` performs no range validation and never
returns an OutOfRange error: for every device, request and collaborator
outcome it marks the mapping non-cacheable and delegates `vm_end -
vm_start` bytes at the device's buffer base (ignoring the requested
offset) to the collaborator, propagating a negative collaborator result
and returning 0 otherwise. -/
theorem c2_mmap_no_range_check (dev : AxidmaDevice) (vma : Vma) (rc : Int) :
    axidma_mmap dev vma rc =
      ((if rc < 0 then rc else 0),
       { vm_start := vma.vm_start, base_addr := dev.dma_base_vaddr,
         size := vma.vm_end - vma.vm_start, noncached := true }) := by
  by_cases h : rc < 0 <;> simp [axidma_mmap, h]

/-- C3: the `xlnx,axi-vdma-s2mm-channel` branch of
`axidma_parse_compatible_property` sets the channel to (VDMA, read) but
increments `num_dma_rx_chans` rather than `num_vdma_rx_chans` (line 45 of
`axidma_of.c`), so after resolving a graph declaring one VDMA receive
channel the dma-rx count is 1 and the vdma-rx count is 0. -/
theorem c3_vdma_rx_miscounted :
    axidma_parse_compatible_property "xlnx,axi-vdma-s2mm-channel" default dev0 =
      Except.ok ({ type := ChanType.vdma, dir := ChanDir.read, channel_id := 0 },
        { dev0 with num_dma_rx_chans := 1 }) ∧
    (axidma_of_parse_dma_nodes dnVdmaRx dev1).1 = Except.ok () ∧
    (axidma_of_parse_dma_nodes dnVdmaRx dev1).2.num_dma_rx_chans = 1 ∧
    (axidma_of_parse_dma_nodes dnVdmaRx dev1).2.num_vdma_rx_chans = 0 := by
  refine ⟨rfl, rfl, rfl, rfl⟩

/-- C10: on a DMA core node with exactly one child, per-channel parsing
with selector 1 always fails: the second-child walk finds no node and the
subsequent `compatible` lookup fails as a missing-property error, so no
channel descriptor is ever produced. -/
theorem c10_selector_one_single_child (nd : DmaNode) (chan : AxidmaChan)
    (dev : AxidmaDevice) (h : nd.children.length = 1) :
    axidma_of_parse_channel nd 1 chan dev = Except.error OfErr.missingCompatible := by
  obtain ⟨a, ha⟩ := List.length_eq_one.mp h
  simp [axidma_of_parse_channel, ha]

/-- Witness for C10 on a concrete single-child node. -/
theorem c10_selector_one_single_child_witness :
    axidma_of_parse_channel txNode 1 default dev0 =
      Except.error OfErr.missingCompatible :=
  c10_selector_one_single_child txNode default dev0 rfl

/-- C6: the type-tag string fully determines the channel's engine type and
direction per the four-entry vocabulary (mm2s-dma is (DMA, write/to-device),
s2mm-dma is (DMA, read/from-device), mm2s-vdma is (VDMA, write), s2mm-vdma
is (VDMA, read)); every other string is rejected, and a selected child
without the tag makes channel parsing fail (both failures return `-EINVAL`
in the C, the realisation of UnknownChannelType). -/
theorem c6_type_tag_vocabulary :
    (∀ c d, axidma_parse_compatible_property "xlnx,axi-dma-mm2s-channel" c d =
      Except.ok ({ c with type := ChanType.dma, dir := ChanDir.write },
        { d with num_dma_tx_chans := d.num_dma_tx_chans + 1 })) ∧
    (∀ c d, axidma_parse_compatible_property "xlnx,axi-dma-s2mm-channel" c d =
      Except.ok ({ c with type := ChanType.dma, dir := ChanDir.read },
        { d with num_dma_rx_chans := d.num_dma_rx_chans + 1 })) ∧
    (∀ c d, axidma_parse_compatible_property "xlnx,axi-vdma-mm2s-channel" c d =
      Except.ok ({ c with type := ChanType.vdma, dir := ChanDir.write },
        { d with num_vdma_tx_chans := d.num_vdma_tx_chans + 1 })) ∧
    (∀ c d, axidma_parse_compatible_property "xlnx,axi-vdma-s2mm-channel" c d =
      Except.ok ({ c with type := ChanType.vdma, dir := ChanDir.read },
        { d with num_dma_rx_chans := d.num_dma_rx_chans + 1 })) ∧
    (∀ s c d, s ≠ "xlnx,axi-dma-mm2s-channel" → s ≠ "xlnx,axi-dma-s2mm-channel" →
      s ≠ "xlnx,axi-vdma-mm2s-channel" → s ≠ "xlnx,axi-vdma-s2mm-channel" →
      axidma_parse_compatible_property s c d = Except.error OfErr.invalidCompatible) ∧
    (∀ cn c d, cn.compatible = none →
      axidma_of_parse_channel { children := [cn] } 0 c d =
        Except.error OfErr.missingCompatible) := by
  refine ⟨fun c d => rfl, fun c d => rfl, fun c d => rfl, fun c d => rfl, ?_, ?_⟩
  · intro s c d h1 h2 h3 h4
    simp [axidma_parse_compatible_property, h1, h2, h3, h4]
  · intro cn c d h
    simp [axidma_of_parse_channel, h]

/-- Witness for C6: an unrecognised tag and a missing tag. -/
theorem c6_type_tag_vocabulary_witness :
    axidma_parse_compatible_property "xlnx,bogus" default dev0 =
      Except.error OfErr.invalidCompatible ∧
    axidma_of_parse_channel { children := [{ compatible := none }] } 0 default dev0 =
      Except.error OfErr.missingCompatible :=
  ⟨c6_type_tag_vocabulary.2.2.2.2.1 "xlnx,bogus" default dev0
      (by decide) (by decide) (by decide) (by decide),
   c6_type_tag_vocabulary.2.2.2.2.2 { compatible := none } default dev0 rfl⟩

/-- C7 counterexample: the single declared reference of `dn7` carries TWO
arguments (`[0, 7]`), an argument count other than exactly one, yet
resolution succeeds — the code only rejects `args_count < 1` and ignores
arguments past the first. -/
theorem c7_counterexample :
    of_parse_phandle_with_args dn7 0 =
      Except.ok { np := txNode, args := [0, 7] } ∧
    (axidma_of_parse_dma_nodes dn7 dev1).1 = Except.ok () := by
  exact ⟨rfl, rfl⟩

/-- C7 (amended): resolution requires the selector (the reference's first
argument) to be exactly 0 or 1 and fails otherwise; it rejects a reference
carrying zero arguments; arguments beyond the first are ignored rather
than rejected; and channel parsing fails on a DMA core node with zero
children or with three or more children. -/
theorem c7_selector_and_children_checks :
    (∀ dn i dev np, of_parse_phandle_with_args dn i = Except.ok { np := np, args := [] } →
      axidma_of_parse_one dn i dev = Except.error (OfErr.missingChannelArg i)) ∧
    (∀ dn i dev np c rest,
      of_parse_phandle_with_args dn i = Except.ok { np := np, args := c :: rest } →
      c ≠ 0 → c ≠ 1 →
      axidma_of_parse_one dn i dev = Except.error (OfErr.invalidChannelArg i)) ∧
    (∀ nd ch c d, nd.children.length = 0 →
      axidma_of_parse_channel nd ch c d = Except.error OfErr.noChildNodes) ∧
    (∀ nd ch c d, 3 ≤ nd.children.length →
      axidma_of_parse_channel nd ch c d = Except.error OfErr.tooManyChildNodes) ∧
    (∀ dn1 dn2 i dev np c rest,
      of_parse_phandle_with_args dn1 i = Except.ok { np := np, args := c :: rest } →
      of_parse_phandle_with_args dn2 i = Except.ok { np := np, args := [c] } →
      axidma_of_parse_one dn1 i dev = axidma_of_parse_one dn2 i dev) := by
  refine ⟨?_, ?_, ?_, ?_, ?_⟩
  · intro dn i dev np h
    simp [axidma_of_parse_one, h]
  · intro dn i dev np c rest h hc0 hc1
    simp [axidma_of_parse_one, h, hc0, hc1]
  · intro nd ch c d h
    simp [axidma_of_parse_channel, h]
  · intro nd ch c d h
    have h1 : ¬ nd.children.length < 1 := by omega
    have h2 : nd.children.length > 2 := by omega
    simp [axidma_of_parse_channel, h1, h2]
  · intro dn1 dn2 i dev np c rest h1 h2
    simp [axidma_of_parse_one, h1, h2]

/-- Witness for C7 (amended) at concrete inputs. -/
theorem c7_selector_and_children_checks_witness :
    axidma_of_parse_one { dmaNames := some ["a"], dmas := some [{ np := txNode, args := [] }] }
      0 dev1 = Except.error (OfErr.missingChannelArg 0) ∧
    axidma_of_parse_one { dmaNames := some ["a"], dmas := some [{ np := txNode, args := [5] }] }
      0 dev1 = Except.error (OfErr.invalidChannelArg 0) ∧
    axidma_of_parse_channel { children := [] } 0 default dev0 =
      Except.error OfErr.noChildNodes ∧
    axidma_of_parse_channel
      { children := [{ compatible := none }, { compatible := none }, { compatible := none }] }
      0 default dev0 = Except.error OfErr.tooManyChildNodes ∧
    axidma_of_parse_one dn7 0 dev1 = axidma_of_parse_one dn7b 0 dev1 :=
  ⟨c7_selector_and_children_checks.1 _ 0 dev1 txNode rfl,
   c7_selector_and_children_checks.2.1 _ 0 dev1 txNode 5 [] rfl
      (by decide) (by decide),
   c7_selector_and_children_checks.2.2.1 { children := [] } 0 default dev0 rfl,
   c7_selector_and_children_checks.2.2.2.1 _ 0 default dev0 (by decide),
   c7_selector_and_children_checks.2.2.2.2 dn7 dn7b 0 dev1 txNode 0 [7] rfl rfl⟩

/-- Helper: the channel loop never reads the `dma-names` property, so its
result is independent of it. -/
theorem parseChansSt_names_irrel (x : Option (List String))
    (ds : Option (List PhandleEntry)) (l : List Nat) :
    ∀ d, parseChansSt { dmaNames := x, dmas := ds } l d =
      parseChansSt { dmaNames := none, dmas := ds } l d := by
  induction l with
  | nil => intro d; rfl
  | cons i rest ih =>
    intro d
    have hpo : axidma_of_parse_one { dmaNames := x, dmas := ds } i d =
        axidma_of_parse_one { dmaNames := none, dmas := ds } i d := rfl
    simp only [parseChansSt, hpo]
    cases axidma_of_parse_one { dmaNames := none, dmas := ds } i d with
    | error e => rfl
    | ok dev1 => exact ih dev1

/-- C8 counterexample: on a graph whose name list has length 2 but whose
reference list has length 1, `axidma_of_num_channels` fails with the
length-mismatch error while `axidma_of_parse_dma_nodes` (on a device sized
for the one reference) succeeds — the two functions do not apply identical
validation and disagree. -/
theorem c8_counterexample :
    axidma_of_num_channels dn8 = Except.error OfErr.lengthMismatch ∧
    (axidma_of_parse_dma_nodes dn8 dev1).1 = Except.ok () :=
  ⟨rfl, rfl⟩

/-- C8 (amended): only `axidma_of_num_channels` validates the companion
lists (presence, non-emptiness, equal lengths, returning the shared
length); `axidma_of_parse_dma_nodes` performs none of that validation —
its result does not depend on the `dma-names` property at all — so the two
agree only when the parse is run with a channel count obtained from a
successful `axidma_of_num_channels`. -/
theorem c8_resolve_skips_list_validation :
    (∀ x ds dev,
      axidma_of_parse_dma_nodes { dmaNames := x, dmas := ds } dev =
        axidma_of_parse_dma_nodes { dmaNames := none, dmas := ds } dev) ∧
    (∀ names dmas, names ≠ ([] : List String) → dmas ≠ ([] : List PhandleEntry) →
      names.length ≠ dmas.length →
      axidma_of_num_channels { dmaNames := some names, dmas := some dmas } =
        Except.error OfErr.lengthMismatch) ∧
    (∀ dn n, axidma_of_num_channels dn = Except.ok n →
      ∃ names dmas, dn.dmaNames = some names ∧ dn.dmas = some dmas ∧
        names.length = n ∧ dmas.length = n ∧ 0 < n) := by
  refine ⟨?_, ?_, ?_⟩
  · intro x ds dev
    exact parseChansSt_names_irrel x ds (List.range dev.num_chans) _
  · intro names dmas h1 h2 h3
    have e1 : names.length ≠ 0 := by simpa [List.length_eq_zero] using h1
    have e2 : dmas.length ≠ 0 := by simpa [List.length_eq_zero] using h2
    simp [axidma_of_num_channels, e1, e2, h3]
  · intro dn n h
    rcases dn with ⟨xn, xd⟩
    cases xn with
    | none => simp [axidma_of_num_channels] at h
    | some names =>
      cases xd with
      | none => simp [axidma_of_num_channels] at h
      | some dmas =>
        unfold axidma_of_num_channels at h
        dsimp only at h
        split_ifs at h with h1 h2 h3 <;> simp at h
        exact ⟨names, dmas, rfl, rfl, by omega, by omega, by omega⟩

/-- Witness for C8 (amended) at concrete graphs. -/
theorem c8_resolve_skips_list_validation_witness :
    (axidma_of_parse_dma_nodes
        { dmaNames := some ["zzz"], dmas := some [{ np := txNode, args := [0] }] } dev1 =
      axidma_of_parse_dma_nodes
        { dmaNames := none, dmas := some [{ np := txNode, args := [0] }] } dev1) ∧
    (axidma_of_num_channels
        { dmaNames := some ["a", "b"], dmas := some [{ np := txNode, args := [0] }] } =
      Except.error OfErr.lengthMismatch) ∧
    (∃ names dmas, dn7b.dmaNames = some names ∧ dn7b.dmas = some dmas ∧
      names.length = 1 ∧ dmas.length = 1 ∧ 0 < 1) :=
  ⟨c8_resolve_skips_list_validation.1 (some ["zzz"]) (some [{ np := txNode, args := [0] }]) dev1,
   c8_resolve_skips_list_validation.2.1 ["a", "b"] [{ np := txNode, args := [0] }]
     (by decide) (by decide) (by decide),
   c8_resolve_skips_list_validation.2.2 dn7b 1 rfl⟩

/-- Helper: a successful `axidma_parse_compatible_property` bumps the
counter total by exactly one and touches neither the channel storage nor
the channel count. -/
theorem parse_compatible_ok (s : String) (c c1 : AxidmaChan) (d d1 : AxidmaDevice)
    (h : axidma_parse_compatible_property s c d = Except.ok (c1, d1)) :
    countSum d1 = countSum d + 1 ∧ d1.num_chans = d.num_chans ∧
    d1.channels = d.channels := by
  obtain ⟨nc, chs, tx, rx, vtx, vrx, va, bl⟩ := d
  unfold axidma_parse_compatible_property at h
  split_ifs at h <;>
    first
    | (simp only [Except.ok.injEq, Prod.mk.injEq] at h
       obtain ⟨h1, h2⟩ := h
       subst h2
       exact ⟨by simp only [countSum]; omega, rfl, rfl⟩)
    | simp at h

/-- Helper: a successful `axidma_of_parse_channel` bumps the counter total
by exactly one and touches neither the channel storage nor the channel
count. -/
theorem parse_channel_ok (nd : DmaNode) (ch : Nat) (c c1 : AxidmaChan)
    (d d1 : AxidmaDevice)
    (h : axidma_of_parse_channel nd ch c d = Except.ok (c1, d1)) :
    countSum d1 = countSum d + 1 ∧ d1.num_chans = d.num_chans ∧
    d1.channels = d.channels := by
  unfold axidma_of_parse_channel at h
  split at h
  · simp at h
  · split at h
    · simp at h
    · split at h
      · simp at h
      · split at h
        · simp at h
        · exact parse_compatible_ok _ _ _ _ _ h

/-- Helper: a successful loop iteration bumps the counter total by one,
preserves the channel count and storage length, writes only slot `i`
(stamping it with `channel_id = i`), and leaves every other slot
untouched. -/
theorem parse_one_ok (dn : DriverNode) (i : Nat) (d d1 : AxidmaDevice)
    (h : axidma_of_parse_one dn i d = Except.ok d1) :
    countSum d1 = countSum d + 1 ∧ d1.num_chans = d.num_chans ∧
    d1.channels.length = d.channels.length ∧
    (∀ j, j ≠ i → d1.channels.get? j = d.channels.get? j) ∧
    (i < d.channels.length →
      ∃ ch, d1.channels.get? i = some ch ∧ ch.channel_id = i) := by
  unfold axidma_of_parse_one at h
  split at h
  · simp at h
  · split at h
    · simp at h
    · split at h
      · simp at h
      · split at h
        · simp at h
        · rename_i chan dev1 heq
          obtain ⟨hsum, hnc, hch⟩ := parse_channel_ok _ _ _ _ _ _ heq
          simp only [Except.ok.injEq] at h
          subst h
          refine ⟨?_, hnc, ?_, ?_, ?_⟩
          · simpa [countSum] using hsum
          · simp [List.length_set, hch]
          · intro j hj
            have hij : i ≠ j := fun e => hj e.symm
            show (dev1.channels.set i { chan with channel_id := i }).get? j =
              d.channels.get? j
            rw [List.get?_set_ne _ _ hij, hch]
          · intro hlt
            refine ⟨{ chan with channel_id := i }, ?_, rfl⟩
            show (dev1.channels.set i { chan with channel_id := i }).get? i =
              some { chan with channel_id := i }
            rw [hch]
            exact List.get?_set_eq_of_lt _ hlt

/-- Helper: a fully successful run of the channel loop over a duplicate-free
index list adds exactly one count per index, preserves the channel count
and storage length, leaves slots outside the list untouched, and stamps
every listed in-range slot with its own index. -/
theorem parseChansSt_ok (dn : DriverNode) (l : List Nat) :
    ∀ d d1, parseChansSt dn l d = (Except.ok (), d1) →
      countSum d1 = countSum d + l.length ∧ d1.num_chans = d.num_chans ∧
      d1.channels.length = d.channels.length ∧
      (∀ j, j ∉ l → d1.channels.get? j = d.channels.get? j) ∧
      (l.Nodup → ∀ i ∈ l, i < d.channels.length →
        ∃ ch, d1.channels.get? i = some ch ∧ ch.channel_id = i) := by
  induction l with
  | nil =>
    intro d d1 h
    simp only [parseChansSt, Prod.mk.injEq, true_and] at h
    subst h
    exact ⟨by simp, rfl, rfl, fun j _ => rfl, by simp⟩
  | cons i rest ih =>
    intro d d1 h
    rw [parseChansSt] at h
    split at h
    · simp at h
    · rename_i dev2 heq
      obtain ⟨hs, hn, hl, hpres, hset⟩ := parse_one_ok dn i d dev2 heq
      obtain ⟨HS, HN, HL, HP, HM⟩ := ih dev2 d1 h
      refine ⟨?_, ?_, ?_, ?_, ?_⟩
      · rw [HS, hs]
        simp [List.length_cons]
        omega
      · rw [HN, hn]
      · rw [HL, hl]
      · intro j hj
        have hji : j ≠ i := fun e => hj (e ▸ List.mem_cons_self i rest)
        have hjr : j ∉ rest := fun e => hj (List.mem_cons_of_mem _ e)
        rw [HP j hjr, hpres j hji]
      · intro hnd i2 hi2 hlt
        have hnd2 : rest.Nodup := (List.nodup_cons.mp hnd).2
        have hinr : i ∉ rest := (List.nodup_cons.mp hnd).1
        rcases List.mem_cons.mp hi2 with rfl | hmem
        · obtain ⟨ch, hch, hid⟩ := hset hlt
          exact ⟨ch, by rw [HP i2 hinr, hch], hid⟩
        · have hlt2 : i2 < dev2.channels.length := by rw [hl]; exact hlt
          exact HM hnd2 i2 hmem hlt2

/-- C5: on every device sized for its declared channel count, a successful
`axidma_of_parse_dma_nodes` leaves exactly `N` channel descriptors, the
descriptor in slot `i` carries `channel_id = i` (declaration order is
preserved, never re-sorted), and the four channel-kind counters sum to
`N`. -/
theorem c5_declaration_order_and_counts (dn : DriverNode) (dev : AxidmaDevice)
    (N : Nat) (hN : dev.num_chans = N) (hlen : dev.channels.length = N)
    (hpos : 1 ≤ N)
    (hok : (axidma_of_parse_dma_nodes dn dev).1 = Except.ok ()) :
    (axidma_of_parse_dma_nodes dn dev).2.channels.length = N ∧
    (∀ i, i < N → ∃ ch,
      (axidma_of_parse_dma_nodes dn dev).2.channels.get? i = some ch ∧
      ch.channel_id = i) ∧
    countSum (axidma_of_parse_dma_nodes dn dev).2 = N := by
  rcases hp : axidma_of_parse_dma_nodes dn dev with ⟨r, d1⟩
  rw [hp] at hok
  simp only at hok
  subst hok
  have hps : parseChansSt dn (List.range dev.num_chans)
      { dev with num_dma_tx_chans := 0, num_dma_rx_chans := 0,
                 num_vdma_tx_chans := 0, num_vdma_rx_chans := 0 } =
      (Except.ok (), d1) := hp
  obtain ⟨HS, HN, HL, HP, HM⟩ := parseChansSt_ok dn (List.range dev.num_chans) _ d1 hps
  refine ⟨?_, ?_, ?_⟩
  · show d1.channels.length = N
    rw [HL]
    exact hlen
  · intro i hi
    show ∃ ch, d1.channels.get? i = some ch ∧ ch.channel_id = i
    have hmem : i ∈ List.range dev.num_chans := List.mem_range.mpr (by omega)
    have hlt : i <
        ({ dev with num_dma_tx_chans := 0, num_dma_rx_chans := 0,
                    num_vdma_tx_chans := 0, num_vdma_rx_chans := 0 } :
          AxidmaDevice).channels.length := by
      show i < dev.channels.length
      omega
    exact HM (List.nodup_range dev.num_chans) i hmem hlt
  · show countSum d1 = N
    rw [HS]
    have h0 : countSum
        { dev with num_dma_tx_chans := 0, num_dma_rx_chans := 0,
                   num_vdma_tx_chans := 0, num_vdma_rx_chans := 0 } = 0 := rfl
    rw [h0, List.length_range]
    omega

/-- Witness for C5 on a concrete two-channel graph. -/
theorem c5_declaration_order_and_counts_witness :
    (axidma_of_parse_dma_nodes dn5 dev5).2.channels.length = 2 ∧
    (∀ i, i < 2 → ∃ ch,
      (axidma_of_parse_dma_nodes dn5 dev5).2.channels.get? i = some ch ∧
      ch.channel_id = i) ∧
    countSum (axidma_of_parse_dma_nodes dn5 dev5).2 = 2 :=
  c5_declaration_order_and_counts dn5 dev5 2 rfl rfl (by decide) rfl

/-- C4: resolution is all-or-nothing.  First, whenever
`axidma_of_parse_dma_nodes` fails on the device sized by a successful
preflight count, the attach sequence publishes nothing to the Session
Manager (`axidma_attach` yields `none`).  Second, the first failing
channel aborts the loop immediately: the loop returns that error with the
device state exactly as it was before the failing iteration, so no write
from the failing or any later iteration is retained. -/
theorem c4_resolution_all_or_nothing :
    (∀ dn dev n e, axidma_of_num_channels dn = Except.ok n →
      (axidma_of_parse_dma_nodes dn
        { dev with num_chans := n, channels := List.replicate n default }).1 =
        Except.error e →
      axidma_attach dn dev = none) ∧
    (∀ dn i rest dev e, axidma_of_parse_one dn i dev = Except.error e →
      parseChansSt dn (i :: rest) dev = (Except.error e, dev)) := by
  constructor
  · intro dn dev n e h1 h2
    rcases hp : axidma_of_parse_dma_nodes dn
      { dev with num_chans := n, channels := List.replicate n default } with ⟨r, d2⟩
    rw [hp] at h2
    simp only at h2
    subst h2
    unfold axidma_attach
    rw [h1]
    dsimp only
    rw [hp]
  · intro dn i rest dev e h
    rw [parseChansSt, h]

/-- Witness for C4 on a graph whose single reference points at a childless
DMA core node. -/
theorem c4_resolution_all_or_nothing_witness :
    axidma_attach dnBad dev0 = none ∧
    parseChansSt dnBad [0] dev1 = (Except.error OfErr.noChildNodes, dev1) :=
  ⟨c4_resolution_all_or_nothing.1 dnBad dev0 1 OfErr.noChildNodes rfl rfl,
   c4_resolution_all_or_nothing.2 dnBad 0 [] dev1 OfErr.noChildNodes rfl⟩

end Axidma

